import Mathlib

/-
Verification of the better-analytics ingestion API core
(src/apps/api/src/index.ts) against its natural-language specification.

The JavaScript values handled by the API are modelled by the inductive
type JSValue; the helper functions of index.ts (replaceUndefinedWithNull,
toCHDateTime64, getCacheKey, getCachedResult, setCachedResult, checkQuota)
are translated one-to-one; the three ingestion handlers and the
object-localization handler are modelled as pure functions of their
request data and of the outcomes of their external collaborators
(UA parser, geo lookup, quota service, event-store insert, translator).
-/

/-- A JavaScript runtime value as it occurs in request bodies and
assembled records: undefined, null, booleans, numbers, strings, arrays
and plain objects (an object is its ordered list of key/value entries). -/
inductive JSValue where
  | undef
  | null
  | boolean (b : Bool)
  | num (n : Int)
  | str (s : String)
  | arr (elems : List JSValue)
  | obj (entries : List (String × JSValue))

/-- JavaScript truthiness of a value (undefined, null, false, 0 and the
empty string are falsy; arrays and objects are always truthy). -/
def jsTruthy : JSValue → Bool
  | .undef => false
  | .null => false
  | .boolean b => b
  | .num n => n != 0
  | .str s => s != ""
  | .arr _ => true
  | .obj _ => true

/-- The JavaScript typeof operator (null and arrays answer "object"). -/
def jsTypeof : JSValue → String
  | .undef => "undefined"
  | .null => "object"
  | .boolean _ => "boolean"
  | .num _ => "number"
  | .str _ => "string"
  | .arr _ => "object"
  | .obj _ => "object"

mutual
/-- replaceUndefinedWithNull from index.ts:
arrays are mapped elementwise, objects are rebuilt entry by entry with
an undefined entry value replaced by null and every other entry value
recursed into, and every non-array non-object value is returned as is
(the source's fall-through branch is spelled out per constructor here). -/
def replaceUndefinedWithNull : JSValue → JSValue
  | .arr xs => .arr (replaceUndefinedList xs)
  | .obj kvs => .obj (replaceUndefinedEntries kvs)
  | .undef => .undef
  | .null => .null
  | .boolean b => .boolean b
  | .num n => .num n
  | .str s => .str s
/-- Elementwise action of replaceUndefinedWithNull on an array
(obj.map(replaceUndefinedWithNull) in the source). -/
def replaceUndefinedList : List JSValue → List JSValue
  | [] => []
  | x :: xs => replaceUndefinedWithNull x :: replaceUndefinedList xs
/-- Entrywise action of replaceUndefinedWithNull on an object's entries
(the source maps each [k, v] to [k, v === undefined ? null :
replaceUndefinedWithNull(v)]; the non-undefined branch is spelled out
per constructor). -/
def replaceUndefinedEntries : List (String × JSValue) → List (String × JSValue)
  | [] => []
  | (k, JSValue.undef) :: rest => (k, JSValue.null) :: replaceUndefinedEntries rest
  | (k, JSValue.null) :: rest =>
      (k, replaceUndefinedWithNull JSValue.null) :: replaceUndefinedEntries rest
  | (k, JSValue.boolean b) :: rest =>
      (k, replaceUndefinedWithNull (JSValue.boolean b)) :: replaceUndefinedEntries rest
  | (k, JSValue.num n) :: rest =>
      (k, replaceUndefinedWithNull (JSValue.num n)) :: replaceUndefinedEntries rest
  | (k, JSValue.str s) :: rest =>
      (k, replaceUndefinedWithNull (JSValue.str s)) :: replaceUndefinedEntries rest
  | (k, JSValue.arr xs) :: rest =>
      (k, replaceUndefinedWithNull (JSValue.arr xs)) :: replaceUndefinedEntries rest
  | (k, JSValue.obj kvs) :: rest =>
      (k, replaceUndefinedWithNull (JSValue.obj kvs)) :: replaceUndefinedEntries rest
end

/-- The shape of a value: its nesting structure with every scalar
collapsed to a leaf.  Two values with the same shape have the same key
sets, the same array lengths and the same element order everywhere. -/
inductive JSShape where
  | leaf
  | arr (elems : List JSShape)
  | obj (entries : List (String × JSShape))

mutual
/-- The shape of a value (key sets, array lengths, nesting). -/
def shapeOf : JSValue → JSShape
  | .arr xs => .arr (shapeOfList xs)
  | .obj kvs => .obj (shapeOfEntries kvs)
  | .undef => .leaf
  | .null => .leaf
  | .boolean _ => .leaf
  | .num _ => .leaf
  | .str _ => .leaf
/-- Shapes of the elements of an array. -/
def shapeOfList : List JSValue → List JSShape
  | [] => []
  | x :: xs => shapeOf x :: shapeOfList xs
/-- Shapes of the entry values of an object. -/
def shapeOfEntries : List (String × JSValue) → List (String × JSShape)
  | [] => []
  | (k, v) :: rest => (k, shapeOf v) :: shapeOfEntries rest
end

mutual
/-- Whether some object entry anywhere inside the value has the value
undefined (an undefined array element is not an object entry). -/
def hasUndefEntry : JSValue → Bool
  | .arr xs => hasUndefEntryList xs
  | .obj kvs => hasUndefEntryEntries kvs
  | .undef => false
  | .null => false
  | .boolean _ => false
  | .num _ => false
  | .str _ => false
/-- hasUndefEntry over the elements of an array. -/
def hasUndefEntryList : List JSValue → Bool
  | [] => false
  | x :: xs => hasUndefEntry x || hasUndefEntryList xs
/-- hasUndefEntry over the entries of an object: an entry whose value is
undefined witnesses it directly, every other entry value is recursed into. -/
def hasUndefEntryEntries : List (String × JSValue) → Bool
  | [] => false
  | (_, JSValue.undef) :: _ => true
  | (_, JSValue.null) :: rest => hasUndefEntry JSValue.null || hasUndefEntryEntries rest
  | (_, JSValue.boolean b) :: rest =>
      hasUndefEntry (JSValue.boolean b) || hasUndefEntryEntries rest
  | (_, JSValue.num n) :: rest => hasUndefEntry (JSValue.num n) || hasUndefEntryEntries rest
  | (_, JSValue.str s) :: rest => hasUndefEntry (JSValue.str s) || hasUndefEntryEntries rest
  | (_, JSValue.arr xs) :: rest => hasUndefEntry (JSValue.arr xs) || hasUndefEntryEntries rest
  | (_, JSValue.obj kvs) :: rest =>
      hasUndefEntry (JSValue.obj kvs) || hasUndefEntryEntries rest
end

mutual
/-- Whether the value contains no undefined anywhere (neither as an
object entry value nor as an array element nor at the top). -/
def noUndef : JSValue → Bool
  | .arr xs => noUndefList xs
  | .obj kvs => noUndefEntries kvs
  | .undef => false
  | .null => true
  | .boolean _ => true
  | .num _ => true
  | .str _ => true
/-- noUndef over the elements of an array. -/
def noUndefList : List JSValue → Bool
  | [] => true
  | x :: xs => noUndef x && noUndefList xs
/-- noUndef over the entries of an object. -/
def noUndefEntries : List (String × JSValue) → Bool
  | [] => true
  | (_, v) :: rest => noUndef v && noUndefEntries rest
end

/-- The padStart call of toCHDateTime64's helper: pad the string on the
left with the character 0 up to length z. -/
def padStart (s : String) (z : Nat) : String :=
  String.mk (List.replicate (z - s.length) '0' ++ s.data)

/-- The helper pad of toCHDateTime64: render the number in decimal and
left-pad it with zeros to width z (z is 2 by default at the source;
call sites here always pass it explicitly). -/
def pad (n : Nat) (z : Nat) : String := padStart (Nat.repr n) z

/-- The local-time components a JavaScript Date exposes through its
getters: getFullYear, getMonth (0-based), getDate, getHours, getMinutes,
getSeconds, getMilliseconds. -/
structure LocalDateTime where
  year : Nat
  month0 : Nat
  day : Nat
  hour : Nat
  minute : Nat
  second : Nat
  ms : Nat
deriving DecidableEq, Repr

/-- The input of toCHDateTime64, abstracted over the platform's Date
parsing: falsy covers null, undefined, 0, NaN and the empty string
(rejected by the truthiness test); invalid is a truthy input whose Date
parse yields NaN; valid carries the parsed local-time components. -/
inductive DateInput where
  | falsy
  | invalid
  | valid (d : LocalDateTime)
deriving DecidableEq, Repr

/-- toCHDateTime64 from index.ts: null for falsy input, null when the
date fails to parse, otherwise the template
year-month-day hour:minute:second.ms with month, day, hour, minute and
second padded to width 2 and milliseconds padded to width 3 (the year,
rendered by the template interpolation, is not padded; the source reads
getMonth() + 1 for the month). -/
def toCHDateTime64 : DateInput → Option String
  | .falsy => none
  | .invalid => none
  | .valid d =>
      some (Nat.repr d.year ++ "-" ++ pad (d.month0 + 1) 2 ++ "-" ++ pad d.day 2 ++ " " ++
        pad d.hour 2 ++ ":" ++ pad d.minute 2 ++ ":" ++ pad d.second 2 ++ "." ++ pad d.ms 3)

/-- A value stored in translationCache: the translation result together
with the wall-clock timestamp of its insertion. -/
structure CacheEntry (α : Type) where
  result : α
  timestamp : Int
deriving DecidableEq, Repr

/-- The in-process translation cache (a Map from key strings to entries),
modelled as a lookup function. -/
def TranslationCache (α : Type) : Type := String → Option (CacheEntry α)

/-- A freshly constructed empty Map. -/
def emptyTranslationCache (α : Type) : TranslationCache α := fun _ => none

/-- Map.set: point update of the cache. -/
def mapSet {α : Type} (cache : TranslationCache α) (k : String) (e : CacheEntry α) :
    TranslationCache α :=
  fun k2 => if k2 = k then some e else cache k2

/-- Map.delete: point removal from the cache. -/
def mapDelete {α : Type} (cache : TranslationCache α) (k : String) : TranslationCache α :=
  fun k2 => if k2 = k then none else cache k2

/-- CACHE_DURATION from index.ts: 5 minutes in milliseconds. -/
def CACHE_DURATION : Int := 5 * 60 * 1000

/-- JSON string quoting (double quotes around the text, with the quote,
backslash, newline, carriage-return and tab characters escaped). -/
def jsonQuote (s : String) : String :=
  "\"" ++ String.join (s.data.map fun c =>
    if c = '"' then "\\\""
    else if c = '\\' then "\\\\"
    else if c = '\n' then "\\n"
    else if c = '\r' then "\\r"
    else if c = '\t' then "\\t"
    else String.singleton c) ++ "\""

mutual
/-- A model of the platform's JSON.stringify on a JSValue, used by
getCacheKey when the content is not a string: none models the undefined
result for an undefined (or otherwise dropped) top-level value; an
undefined object entry is omitted; an undefined array element serializes
as null. -/
def jsonStringify : JSValue → Option String
  | .undef => none
  | .null => some "null"
  | .boolean b => some (if b then "true" else "false")
  | .num n => some (toString n)
  | .str s => some (jsonQuote s)
  | .arr xs => some ("[" ++ String.intercalate "," (jsonElemParts xs) ++ "]")
  | .obj kvs => some ("\x7b" ++ String.intercalate "," (jsonEntryParts kvs) ++ "\x7d")
/-- The serialized elements of an array (an element that would serialize
to undefined renders as null). -/
def jsonElemParts : List JSValue → List String
  | [] => []
  | x :: xs => ((jsonStringify x).getD "null") :: jsonElemParts xs
/-- The serialized key:value parts of an object; entries whose value
serializes to undefined are dropped. -/
def jsonEntryParts : List (String × JSValue) → List String
  | [] => []
  | (k, v) :: rest =>
      match jsonStringify v with
      | none => jsonEntryParts rest
      | some sv => (jsonQuote k ++ ":" ++ sv) :: jsonEntryParts rest
end

/-- The content argument of getCacheKey: the source types it as
string | object. -/
inductive ContentInput where
  | str (s : String)
  | obj (v : JSValue)

/-- getCacheKey from index.ts: a string content is used as is, any other
content is serialized with JSON.stringify (template interpolation renders
an undefined serialization as the text undefined), and the key is the
dash-joined concatenation content-sourceLocale-targetLocale. -/
def getCacheKey (content : ContentInput) (sourceLocale targetLocale : String) : String :=
  let contentStr :=
    match content with
    | .str s => s
    | .obj v => (jsonStringify v).getD "undefined"
  contentStr ++ "-" ++ sourceLocale ++ "-" ++ targetLocale

/-- getCachedResult from index.ts: look the key up; a present entry
younger than CACHE_DURATION is returned and the cache is untouched; a
present entry at least CACHE_DURATION old is deleted and the lookup
misses; an absent key misses.  The pair is (returned result, cache state
after the call). -/
def getCachedResult {α : Type} (cache : TranslationCache α) (now : Int) (cacheKey : String) :
    Option α × TranslationCache α :=
  match cache cacheKey with
  | some cached =>
      if now - cached.timestamp < CACHE_DURATION then (some cached.result, cache)
      else (none, mapDelete cache cacheKey)
  | none => (none, cache)

/-- setCachedResult from index.ts: store the result under the key with
the current timestamp. -/
def setCachedResult {α : Type} (cache : TranslationCache α) (cacheKey : String) (result : α)
    (now : Int) : TranslationCache α :=
  mapSet cache cacheKey { result := result, timestamp := now }

/-- The data field of an Autumn.check response: its allowed field may be
absent (none models a malformed response without it). -/
structure AutumnCheckData where
  allowed : Option Bool
deriving DecidableEq, Repr

/-- The outcome of the awaited Autumn.check call inside checkQuota:
either the call throws, or it resolves with a possibly absent data
object. -/
inductive AutumnOutcome where
  | throws
  | ok (data : Option AutumnCheckData)
deriving DecidableEq, Repr

/-- checkQuota from index.ts: on a resolved call the result is
data?.allowed ?? false (so a missing data object or a missing allowed
field yields false); on a thrown error the error is logged and the
function returns true. -/
def checkQuota : AutumnOutcome → Bool
  | .throws => true
  | .ok data => ((data.bind AutumnCheckData.allowed).getD false)

/-- The JavaScript nullish-coalescing operator a ?? b on optional
values: the left value when it is neither null nor undefined, otherwise
the right value. -/
def jsNullish {α : Type} : Option α → Option α → Option α
  | some a, _ => some a
  | none, b => b

/-- The JavaScript or operator a || b on optional strings: the right
value when the left is null, undefined or the (falsy) empty string. -/
def jsOrStr : Option String → Option String → Option String
  | some s, b => if s = "" then b else some s
  | none, b => b

/-- The result of the UAParser call on the user-agent header: any field
the parser cannot determine is undefined. -/
structure UAParseResult where
  browserName : Option String
  browserVersion : Option String
  osName : Option String
  osVersion : Option String
  deviceType : Option String
deriving DecidableEq, Repr

/-- The result of the getGeoData lookup on the client IP: each
geolocation attribute may be absent. -/
structure GeoData where
  country : Option String
  region : Option String
  city : Option String
  org : Option String
  postal : Option String
  loc : Option String
deriving DecidableEq, Repr

/-- Modelled from the spec: the ErrorIngestBody schema (src/apps/api/src/types
is not part of the snapshot).  Per the spec's data model, client_id is
required and the enrichment fields — browser name/version, OS
name/version, device type, and the geolocation attributes country,
region, city, org, postal, loc — are all optional and caller-suppliable,
alongside the payload and timestamp fields the handler reads. -/
structure ErrorIngestBody where
  client_id : String
  message : Option String
  url : Option String
  tags : Option (List String)
  occurrence_count : Option Nat
  source : Option String
  browser_name : Option String
  browser_version : Option String
  os_name : Option String
  os_version : Option String
  device_type : Option String
  country : Option String
  region : Option String
  city : Option String
  org : Option String
  postal : Option String
  loc : Option String
  first_occurrence : DateInput
  last_occurrence : DateInput
  resolved_at : DateInput
deriving DecidableEq, Repr

/-- The errorData record the /ingest handler assembles and persists
(its field set, with body fields that the object literal does not
re-assign carried through by the spread). -/
structure ErrorEventRow where
  id : String
  client_id : String
  message : Option String
  url : Option String
  tags : List String
  occurrence_count : Nat
  source : Option String
  user_agent : String
  browser_name : Option String
  browser_version : Option String
  os_name : Option String
  os_version : Option String
  device_type : String
  ip_address : Option String
  country : Option String
  region : Option String
  city : Option String
  org : Option String
  postal : Option String
  loc : Option String
  first_occurrence : Option String
  last_occurrence : Option String
  resolved_at : Option String
  created_at : Option String
  updated_at : Option String
deriving DecidableEq, Repr

/-- The errorData object literal of the /ingest handler, field by field:
id is the fresh UUID; the body is spread first; tags defaults to [] and
occurrence_count to 1; source is body.source || the parsed domain;
user_agent and ip_address are the derived values; the browser, OS and
device fields prefer the body value (?? the UA-parse value, with device
type falling back to "desktop"); the six geolocation fields are taken
from the geo lookup unconditionally, after the spread, so they overwrite
any body value; the occurrence timestamps are normalized body values ||
the normalized current time; resolved_at is the normalized body value;
created_at and updated_at are the normalized current time. -/
def buildErrorData (id : String) (body : ErrorIngestBody) (userAgent : String)
    (ua : UAParseResult) (ip : Option String) (geo : GeoData) (domain : Option String)
    (now : DateInput) : ErrorEventRow :=
  { id := id
    client_id := body.client_id
    message := body.message
    url := body.url
    tags := body.tags.getD []
    occurrence_count := body.occurrence_count.getD 1
    source := jsOrStr body.source domain
    user_agent := userAgent
    browser_name := jsNullish body.browser_name ua.browserName
    browser_version := jsNullish body.browser_version ua.browserVersion
    os_name := jsNullish body.os_name ua.osName
    os_version := jsNullish body.os_version ua.osVersion
    device_type := (jsNullish body.device_type ua.deviceType).getD "desktop"
    ip_address := ip
    country := geo.country
    region := geo.region
    city := geo.city
    org := geo.org
    postal := geo.postal
    loc := geo.loc
    first_occurrence := jsOrStr (toCHDateTime64 body.first_occurrence) (toCHDateTime64 now)
    last_occurrence := jsOrStr (toCHDateTime64 body.last_occurrence) (toCHDateTime64 now)
    resolved_at := toCHDateTime64 body.resolved_at
    created_at := toCHDateTime64 now
    updated_at := toCHDateTime64 now }

/-- What a request handler observably produced: the HTTP status (Elysia
leaves the default 200 unless the handler assigns set.status), the
status and message fields of the returned body, whether the event-store
insert collaborator was invoked, and the id returned on success. -/
structure HandlerResult where
  status : Nat
  bodyStatus : String
  message : Option String
  insertCalled : Bool
  returnedId : Option String
deriving DecidableEq, Repr

/-- The /ingest handler's control flow over the quota answer and the
insert outcome: on isAllowed false it sets status 429 and returns the
quota-exceeded error body without inserting; otherwise it inserts, and
returns the success body on success or — from the catch branch, which
logs and returns without assigning set.status, so the response keeps the
default 200 — the failure body. -/
def ingestPipeline (isAllowed : Bool) (insertOk : Bool) (id : String) : HandlerResult :=
  if !isAllowed then
    { status := 429, bodyStatus := "error",
      message := some "Quota exceeded for error ingestion.",
      insertCalled := false, returnedId := none }
  else if insertOk then
    { status := 200, bodyStatus := "success", message := none,
      insertCalled := true, returnedId := some id }
  else
    { status := 200, bodyStatus := "error", message := some "Failed to process error",
      insertCalled := true, returnedId := none }

/-- The /log handler's control flow, identical in shape to /ingest (its
catch branch also returns without assigning set.status). -/
def logPipeline (isAllowed : Bool) (insertOk : Bool) (id : String) : HandlerResult :=
  if !isAllowed then
    { status := 429, bodyStatus := "error",
      message := some "Quota exceeded for log ingestion.",
      insertCalled := false, returnedId := none }
  else if insertOk then
    { status := 200, bodyStatus := "success", message := none,
      insertCalled := true, returnedId := some id }
  else
    { status := 200, bodyStatus := "error", message := some "Failed to process log",
      insertCalled := true, returnedId := none }

/-- The /track-404 handler's control flow: on isAllowed false it sets
429 and returns without inserting; otherwise it inserts (the insert is
not wrapped in try/catch, so an insert failure propagates to the app's
onError hook, which answers 500 with the generic internal-error body). -/
def notFoundPipeline (isAllowed : Bool) (insertOk : Bool) (id : String) : HandlerResult :=
  if !isAllowed then
    { status := 429, bodyStatus := "error",
      message := some "Quota exceeded for 404 tracking.",
      insertCalled := false, returnedId := none }
  else if insertOk then
    { status := 200, bodyStatus := "success", message := none,
      insertCalled := true, returnedId := some id }
  else
    { status := 500, bodyStatus := "error", message := some "An internal error occurred.",
      insertCalled := true, returnedId := none }

/-- toCHDateTime64 results land in JSON rows as a string or null. -/
def jsOfTimestamp : Option String → JSValue
  | some s => .str s
  | none => .null

/-- The value the /ingest handler passes to the event-store insert:
sanitizedErrorData, i.e. replaceUndefinedWithNull applied to the
assembled errorData. -/
def errorInsertValue (errorData : JSValue) : JSValue := replaceUndefinedWithNull errorData

/-- The value the /track-404 handler passes to the event-store insert:
cleanedData, i.e. replaceUndefinedWithNull applied to the assembled
data. -/
def notFoundInsertValue (data : JSValue) : JSValue := replaceUndefinedWithNull data

/-- The value the /log handler passes to the event-store insert: the
logData object literal, with id first, the body fields spread, and
created_at last — inserted as assembled, with no sanitizing step. -/
def logInsertValue (id : String) (bodyFields : List (String × JSValue))
    (created_at : Option String) : JSValue :=
  .obj (("id", .str id) :: bodyFields ++ [("created_at", jsOfTimestamp created_at)])

/-- The argument triple of a lingoDotDev.localizeObject call: the content
and the sourceLocale and targetLocale options. -/
structure TranslateCall where
  content : JSValue
  sourceLocale : String
  targetLocale : String

/-- What the /localization/object handler observably did: the HTTP
status, the localizeObject call it made (none on a 400 or a cache hit),
the result it returned, the cache key it used and the cache state after
the request. -/
structure ObjLocOutcome (α : Type) where
  status : Nat
  call : Option TranslateCall
  result : Option α
  cacheKeyUsed : Option String
  cacheAfter : TranslationCache α

/-- The /localization/object handler: destructure content, sourceLocale
and targetLocale from the body (the locales default to "en" when the
field is absent); answer 400 when content is falsy or not of typeof
object; build the cache key from the content and the two destructured
locales and look it up; on a hit return the cached result; on a miss
call the translator with the destructured sourceLocale but with the
hard-coded target locale "ar" (not the destructured targetLocale), store
the result under the key and return it.  The translator collaborator is
a parameter. -/
def localizationObjectHandler {α : Type} (translator : TranslateCall → α)
    (cache : TranslationCache α) (now : Int) (contentField : Option JSValue)
    (sourceLocaleField targetLocaleField : Option String) : ObjLocOutcome α :=
  let content := contentField.getD .undef
  let sourceLocale := sourceLocaleField.getD "en"
  let targetLocale := targetLocaleField.getD "en"
  if !jsTruthy content || jsTypeof content != "object" then
    { status := 400, call := none, result := none, cacheKeyUsed := none, cacheAfter := cache }
  else
    let cacheKey := getCacheKey (.obj content) sourceLocale targetLocale
    match getCachedResult cache now cacheKey with
    | (some cachedResult, cacheNext) =>
        { status := 200, call := none, result := some cachedResult,
          cacheKeyUsed := some cacheKey, cacheAfter := cacheNext }
    | (none, cacheNext) =>
        let call : TranslateCall :=
          { content := content, sourceLocale := sourceLocale, targetLocale := "ar" }
        let result := translator call
        { status := 200, call := some call, result := some result,
          cacheKeyUsed := some cacheKey,
          cacheAfter := setCachedResult cacheNext cacheKey result now }

/-- A concrete error body supplying its own country/region/city values,
used to exhibit the geo overwrite. -/
def demoErrorBody : ErrorIngestBody :=
  { client_id := "c1", message := some "boom", url := none, tags := none,
    occurrence_count := none, source := none, browser_name := some "CallerBrowser",
    browser_version := none, os_name := none, os_version := none, device_type := none,
    country := some "Wonderland", region := some "Nowhere", city := some "Oz",
    org := none, postal := none, loc := none, first_occurrence := .falsy,
    last_occurrence := .falsy, resolved_at := .falsy }

/-- A concrete geo-lookup result. -/
def demoGeo : GeoData :=
  { country := some "DE", region := some "BE", city := some "Berlin", org := none,
    postal := none, loc := none }

/-- A concrete UA-parse result. -/
def demoUA : UAParseResult :=
  { browserName := some "Firefox", browserVersion := some "120", osName := some "Linux",
    osVersion := none, deviceType := none }

/-- The row /ingest assembles for the demo request. -/
def demoErrorRow : ErrorEventRow :=
  buildErrorData "err-1" demoErrorBody "UA/1.0" demoUA (some "203.0.113.7") demoGeo none
    (.valid ⟨2024, 0, 2, 3, 4, 5, 6⟩)

/-- A concrete localization content object. -/
def demoContent : JSValue := .obj [("greeting", .str "hello")]

mutual
theorem shapeOf_replace : ∀ v : JSValue, shapeOf (replaceUndefinedWithNull v) = shapeOf v
  | .undef => by simp [replaceUndefinedWithNull]
  | .null => by simp [replaceUndefinedWithNull]
  | .boolean b => by simp [replaceUndefinedWithNull]
  | .num n => by simp [replaceUndefinedWithNull]
  | .str s => by simp [replaceUndefinedWithNull]
  | .arr xs => by simp [replaceUndefinedWithNull, shapeOf, shapeOfList_replace xs]
  | .obj kvs => by simp [replaceUndefinedWithNull, shapeOf, shapeOfEntries_replace kvs]
theorem shapeOfList_replace : ∀ xs : List JSValue,
    shapeOfList (replaceUndefinedList xs) = shapeOfList xs
  | [] => by simp [replaceUndefinedList]
  | x :: xs => by
      simp [replaceUndefinedList, shapeOfList, shapeOf_replace x, shapeOfList_replace xs]
theorem shapeOfEntries_replace : ∀ kvs : List (String × JSValue),
    shapeOfEntries (replaceUndefinedEntries kvs) = shapeOfEntries kvs
  | [] => by simp [replaceUndefinedEntries]
  | (k, JSValue.undef) :: rest => by
      simp [replaceUndefinedEntries, shapeOfEntries, shapeOf, shapeOfEntries_replace rest]
  | (k, JSValue.null) :: rest => by
      simp [replaceUndefinedEntries, shapeOfEntries, replaceUndefinedWithNull,
        shapeOfEntries_replace rest]
  | (k, JSValue.boolean b) :: rest => by
      simp [replaceUndefinedEntries, shapeOfEntries, replaceUndefinedWithNull,
        shapeOfEntries_replace rest]
  | (k, JSValue.num n) :: rest => by
      simp [replaceUndefinedEntries, shapeOfEntries, replaceUndefinedWithNull,
        shapeOfEntries_replace rest]
  | (k, JSValue.str s) :: rest => by
      simp [replaceUndefinedEntries, shapeOfEntries, replaceUndefinedWithNull,
        shapeOfEntries_replace rest]
  | (k, JSValue.arr xs) :: rest => by
      simp [replaceUndefinedEntries, shapeOfEntries, replaceUndefinedWithNull, shapeOf,
        shapeOfEntries_replace rest, shapeOfList_replace xs]
  | (k, JSValue.obj kvs) :: rest => by
      simp [replaceUndefinedEntries, shapeOfEntries, replaceUndefinedWithNull, shapeOf,
        shapeOfEntries_replace rest, shapeOfEntries_replace kvs]
end

mutual
theorem replace_idem : ∀ v : JSValue,
    replaceUndefinedWithNull (replaceUndefinedWithNull v) = replaceUndefinedWithNull v
  | .undef => by simp [replaceUndefinedWithNull]
  | .null => by simp [replaceUndefinedWithNull]
  | .boolean b => by simp [replaceUndefinedWithNull]
  | .num n => by simp [replaceUndefinedWithNull]
  | .str s => by simp [replaceUndefinedWithNull]
  | .arr xs => by simp [replaceUndefinedWithNull, replaceList_idem xs]
  | .obj kvs => by simp [replaceUndefinedWithNull, replaceEntries_idem kvs]
theorem replaceList_idem : ∀ xs : List JSValue,
    replaceUndefinedList (replaceUndefinedList xs) = replaceUndefinedList xs
  | [] => by simp [replaceUndefinedList]
  | x :: xs => by simp [replaceUndefinedList, replace_idem x, replaceList_idem xs]
theorem replaceEntries_idem : ∀ kvs : List (String × JSValue),
    replaceUndefinedEntries (replaceUndefinedEntries kvs) = replaceUndefinedEntries kvs
  | [] => by simp [replaceUndefinedEntries]
  | (k, JSValue.undef) :: rest => by
      simp [replaceUndefinedEntries, replaceEntries_idem rest, replaceUndefinedWithNull]
  | (k, JSValue.null) :: rest => by
      simp [replaceUndefinedEntries, replaceEntries_idem rest, replaceUndefinedWithNull]
  | (k, JSValue.boolean b) :: rest => by
      simp [replaceUndefinedEntries, replaceEntries_idem rest, replaceUndefinedWithNull]
  | (k, JSValue.num n) :: rest => by
      simp [replaceUndefinedEntries, replaceEntries_idem rest, replaceUndefinedWithNull]
  | (k, JSValue.str s) :: rest => by
      simp [replaceUndefinedEntries, replaceEntries_idem rest, replaceUndefinedWithNull]
  | (k, JSValue.arr xs) :: rest => by
      simp [replaceUndefinedEntries, replaceEntries_idem rest, replaceUndefinedWithNull,
        replaceList_idem xs]
  | (k, JSValue.obj kvs) :: rest => by
      simp [replaceUndefinedEntries, replaceEntries_idem rest, replaceUndefinedWithNull,
        replaceEntries_idem kvs]
end

mutual
theorem replace_of_noUndef : ∀ v : JSValue, noUndef v = true → replaceUndefinedWithNull v = v
  | .undef => by simp [noUndef]
  | .null => by simp [replaceUndefinedWithNull]
  | .boolean b => by simp [replaceUndefinedWithNull]
  | .num n => by simp [replaceUndefinedWithNull]
  | .str s => by simp [replaceUndefinedWithNull]
  | .arr xs => by
      intro h
      simp only [noUndef] at h
      simp [replaceUndefinedWithNull, replaceList_of_noUndef xs h]
  | .obj kvs => by
      intro h
      simp only [noUndef] at h
      simp [replaceUndefinedWithNull, replaceEntries_of_noUndef kvs h]
theorem replaceList_of_noUndef : ∀ xs : List JSValue,
    noUndefList xs = true → replaceUndefinedList xs = xs
  | [] => by simp [replaceUndefinedList]
  | x :: xs => by
      intro h
      simp only [noUndefList, Bool.and_eq_true] at h
      simp [replaceUndefinedList, replace_of_noUndef x h.1, replaceList_of_noUndef xs h.2]
theorem replaceEntries_of_noUndef : ∀ kvs : List (String × JSValue),
    noUndefEntries kvs = true → replaceUndefinedEntries kvs = kvs
  | [] => by simp [replaceUndefinedEntries]
  | (k, JSValue.undef) :: rest => by simp [noUndefEntries, noUndef]
  | (k, JSValue.null) :: rest => by
      intro h
      simp only [noUndefEntries, Bool.and_eq_true] at h
      simp [replaceUndefinedEntries, replaceUndefinedWithNull,
        replaceEntries_of_noUndef rest h.2]
  | (k, JSValue.boolean b) :: rest => by
      intro h
      simp only [noUndefEntries, Bool.and_eq_true] at h
      simp [replaceUndefinedEntries, replaceUndefinedWithNull,
        replaceEntries_of_noUndef rest h.2]
  | (k, JSValue.num n) :: rest => by
      intro h
      simp only [noUndefEntries, Bool.and_eq_true] at h
      simp [replaceUndefinedEntries, replaceUndefinedWithNull,
        replaceEntries_of_noUndef rest h.2]
  | (k, JSValue.str s) :: rest => by
      intro h
      simp only [noUndefEntries, Bool.and_eq_true] at h
      simp [replaceUndefinedEntries, replaceUndefinedWithNull,
        replaceEntries_of_noUndef rest h.2]
  | (k, JSValue.arr xs) :: rest => by
      intro h
      simp only [noUndefEntries, Bool.and_eq_true, noUndef] at h
      simp [replaceUndefinedEntries, replaceUndefinedWithNull,
        replaceList_of_noUndef xs h.1, replaceEntries_of_noUndef rest h.2]
  | (k, JSValue.obj kvs) :: rest => by
      intro h
      simp only [noUndefEntries, Bool.and_eq_true, noUndef] at h
      simp [replaceUndefinedEntries, replaceUndefinedWithNull,
        replaceEntries_of_noUndef kvs h.1, replaceEntries_of_noUndef rest h.2]
end

mutual
theorem hasUndefEntry_replace : ∀ v : JSValue,
    hasUndefEntry (replaceUndefinedWithNull v) = false
  | .undef => by simp [replaceUndefinedWithNull, hasUndefEntry]
  | .null => by simp [replaceUndefinedWithNull, hasUndefEntry]
  | .boolean b => by simp [replaceUndefinedWithNull, hasUndefEntry]
  | .num n => by simp [replaceUndefinedWithNull, hasUndefEntry]
  | .str s => by simp [replaceUndefinedWithNull, hasUndefEntry]
  | .arr xs => by simp [replaceUndefinedWithNull, hasUndefEntry, hasUndefEntryList_replace xs]
  | .obj kvs => by
      simp [replaceUndefinedWithNull, hasUndefEntry, hasUndefEntryEntries_replace kvs]
theorem hasUndefEntryList_replace : ∀ xs : List JSValue,
    hasUndefEntryList (replaceUndefinedList xs) = false
  | [] => by simp [replaceUndefinedList, hasUndefEntryList]
  | x :: xs => by
      simp [replaceUndefinedList, hasUndefEntryList, hasUndefEntry_replace x,
        hasUndefEntryList_replace xs]
theorem hasUndefEntryEntries_replace : ∀ kvs : List (String × JSValue),
    hasUndefEntryEntries (replaceUndefinedEntries kvs) = false
  | [] => by simp [replaceUndefinedEntries, hasUndefEntryEntries]
  | (k, JSValue.undef) :: rest => by
      simp [replaceUndefinedEntries, hasUndefEntryEntries, hasUndefEntry,
        hasUndefEntryEntries_replace rest]
  | (k, JSValue.null) :: rest => by
      simp [replaceUndefinedEntries, replaceUndefinedWithNull, hasUndefEntryEntries,
        hasUndefEntry, hasUndefEntryEntries_replace rest]
  | (k, JSValue.boolean b) :: rest => by
      simp [replaceUndefinedEntries, replaceUndefinedWithNull, hasUndefEntryEntries,
        hasUndefEntry, hasUndefEntryEntries_replace rest]
  | (k, JSValue.num n) :: rest => by
      simp [replaceUndefinedEntries, replaceUndefinedWithNull, hasUndefEntryEntries,
        hasUndefEntry, hasUndefEntryEntries_replace rest]
  | (k, JSValue.str s) :: rest => by
      simp [replaceUndefinedEntries, replaceUndefinedWithNull, hasUndefEntryEntries,
        hasUndefEntry, hasUndefEntryEntries_replace rest]
  | (k, JSValue.arr xs) :: rest => by
      simp [replaceUndefinedEntries, replaceUndefinedWithNull, hasUndefEntryEntries,
        hasUndefEntry, hasUndefEntryList_replace xs, hasUndefEntryEntries_replace rest]
  | (k, JSValue.obj kvs) :: rest => by
      simp [replaceUndefinedEntries, replaceUndefinedWithNull, hasUndefEntryEntries,
        hasUndefEntry, hasUndefEntryEntries_replace kvs, hasUndefEntryEntries_replace rest]
end

theorem replaceList_getElem (xs : List JSValue) (i : Nat) :
    (replaceUndefinedList xs)[i]? = (xs[i]?).map replaceUndefinedWithNull := by
  induction xs generalizing i with
  | nil => simp [replaceUndefinedList]
  | cons x xs ih =>
      cases i with
      | zero => simp [replaceUndefinedList]
      | succ j => simpa [replaceUndefinedList] using ih j


theorem padStart_length (s : String) (z : Nat) : (padStart s z).length = max z s.length := by
  simp only [padStart, String.length]
  simp [List.length_append, List.length_replicate]
  omega

theorem pad_length (n z : Nat) (hz : 0 < z) (h : n < 10 ^ z) : (pad n z).length = z := by
  have hle := Nat.repr_length n z hz h
  simp [pad, padStart_length]
  omega

theorem toDigitsCore_length_succ_le (fuel : Nat) : ∀ (n : Nat) (acc : List Char),
    acc.length + 1 ≤ (Nat.toDigitsCore 10 (fuel + 1) n acc).length := by
  induction fuel with
  | zero =>
      intro n acc
      simp only [Nat.toDigitsCore]
      split <;> simp [Nat.toDigitsCore]
  | succ f ih =>
      intro n acc
      have ihh := ih (n / 10) (Nat.digitChar (n % 10) :: acc)
      simp only [Nat.toDigitsCore]
      simp only [Nat.toDigitsCore] at ihh
      split
      · simp
      · refine le_trans ?_ ihh
        simp

theorem toDigitsCore_length_ge (e : Nat) : ∀ (fuel n : Nat) (acc : List Char),
    n < fuel → 10 ^ e ≤ n → e + 1 + acc.length ≤ (Nat.toDigitsCore 10 fuel n acc).length := by
  induction e with
  | zero =>
      intro fuel n acc hfuel _
      obtain ⟨f, rfl⟩ : ∃ f, fuel = f + 1 := ⟨fuel - 1, by omega⟩
      have := toDigitsCore_length_succ_le f n acc
      omega
  | succ e ih =>
      intro fuel n acc hfuel hn
      obtain ⟨f, rfl⟩ : ∃ f, fuel = f + 1 := ⟨fuel - 1, by omega⟩
      have h10 : 10 ≤ n := by
        have : 10 ^ 1 ≤ 10 ^ (e + 1) := Nat.pow_le_pow_right (by omega) (by omega)
        simp at this
        omega
      have hdiv : n / 10 ≠ 0 := by
        have : 1 ≤ n / 10 := (Nat.le_div_iff_mul_le (by omega)).mpr (by omega)
        omega
      simp only [Nat.toDigitsCore, hdiv, if_false]
      have hn' : 10 ^ e ≤ n / 10 :=
        (Nat.le_div_iff_mul_le (by omega)).mpr (by rw [pow_succ] at hn; omega)
      have hf : n / 10 < f := by
        have := Nat.div_lt_self (show 0 < n by omega) (show 1 < 10 by omega)
        omega
      have := ih f (n / 10) (Nat.digitChar (n % 10) :: acc) hf hn'
      simp at this
      omega

theorem repr_length_ge (n e : Nat) (h : 10 ^ e ≤ n) : e + 1 ≤ (Nat.repr n).length := by
  have := toDigitsCore_length_ge e (n + 1) n [] (by omega) h
  simpa [Nat.repr, Nat.toDigits, String.length, List.asString] using this

theorem repr_year_length (y : Nat) (h1 : 1000 ≤ y) (h2 : y < 10000) :
    (Nat.repr y).length = 4 := by
  have hu : (Nat.repr y).length ≤ 4 := Nat.repr_length y 4 (by omega) (by omega)
  have hl : 4 ≤ (Nat.repr y).length := repr_length_ge y 3 (by norm_num; omega)
  omega


theorem toCHDateTime64_format (d : LocalDateTime) (hy1 : 1000 ≤ d.year)
    (hy2 : d.year < 10000) (hmo : d.month0 < 12) (hd : d.day < 32) (hh : d.hour < 24)
    (hmi : d.minute < 60) (hs : d.second < 60) (hms : d.ms < 1000) :
    ∃ ys mos ds hos mis ses mss : String,
      toCHDateTime64 (.valid d) =
        some (ys ++ "-" ++ mos ++ "-" ++ ds ++ " " ++ hos ++ ":" ++ mis ++ ":" ++ ses ++
          "." ++ mss) ∧
      ys.length = 4 ∧ mos.length = 2 ∧ ds.length = 2 ∧ hos.length = 2 ∧ mis.length = 2 ∧
      ses.length = 2 ∧ mss.length = 3 := by
  refine ⟨Nat.repr d.year, pad (d.month0 + 1) 2, pad d.day 2, pad d.hour 2, pad d.minute 2,
    pad d.second 2, pad d.ms 3, rfl, ?_, ?_, ?_, ?_, ?_, ?_, ?_⟩
  · exact repr_year_length d.year hy1 hy2
  · exact pad_length (d.month0 + 1) 2 (by omega) (by norm_num; omega)
  · exact pad_length d.day 2 (by omega) (by norm_num; omega)
  · exact pad_length d.hour 2 (by omega) (by norm_num; omega)
  · exact pad_length d.minute 2 (by omega) (by norm_num; omega)
  · exact pad_length d.second 2 (by omega) (by norm_num; omega)
  · exact pad_length d.ms 3 (by omega) (by norm_num; omega)

theorem toCHDateTime64_example :
    toCHDateTime64 (.valid ⟨2024, 0, 2, 3, 4, 5, 6⟩) = some "2024-01-02 03:04:05.006" := by
  rfl


/-- C1 counterexample: the /log handler inserts logData without passing
it through the null sanitizer, so a log body carrying an undefined field
reaches the store insert with that field still undefined. -/
theorem log_insert_unsanitized_cex :
    hasUndefEntry (logInsertValue "log-1" [("message", .str "hi"), ("context", .undef)]
      (some "2024-01-02 03:04:05.006")) = true := by
  simp [logInsertValue, jsOfTimestamp, hasUndefEntry, hasUndefEntryEntries]

/-- C1 (corrected): the /ingest and /track-404 handlers pass the fully
assembled record through replaceUndefinedWithNull immediately before the
event-store insert, so the inserted value has no undefined object field;
the /log handler inserts its assembled logData without the sanitizing
step, and an inserted log row can therefore carry an undefined field. -/
theorem sanitized_insert_per_event_kind :
    (∀ v, errorInsertValue v = replaceUndefinedWithNull v ∧
      hasUndefEntry (errorInsertValue v) = false) ∧
    (∀ v, notFoundInsertValue v = replaceUndefinedWithNull v ∧
      hasUndefEntry (notFoundInsertValue v) = false) ∧
    ¬ (∀ (id : String) (bodyFields : List (String × JSValue)) (ca : Option String),
        hasUndefEntry (logInsertValue id bodyFields ca) = false) := by
  refine ⟨fun v => ⟨rfl, hasUndefEntry_replace v⟩,
    fun v => ⟨rfl, hasUndefEntry_replace v⟩, fun h => ?_⟩
  have := h "log-1" [("context", .undef)] none
  simp [logInsertValue, jsOfTimestamp, hasUndefEntry, hasUndefEntryEntries] at this

/-- C2 counterexample: when the quota check passes and the event-store
insert fails, the /ingest handler returns the error body from its catch
branch without assigning set.status, so the HTTP status is the default
200, not 500. -/
theorem ingest_insert_failure_status_cex :
    (ingestPipeline true false "e1").status = 200 ∧
    (ingestPipeline true false "e1").status ≠ 500 ∧
    (ingestPipeline true false "e1").bodyStatus = "error" ∧
    (ingestPipeline true false "e1").message = some "Failed to process error" := by
  exact ⟨rfl, by decide, rfl, rfl⟩

/-- C2 (corrected): on an /ingest insert failure after a passed quota
check the response body is the error shape with the failure message, but
the HTTP status stays at the default 200 (the catch branch never assigns
set.status); the handler only ever produces statuses 200 and 429. -/
theorem ingest_insert_failure_response (id : String) :
    ((ingestPipeline true false id).bodyStatus = "error" ∧
     (ingestPipeline true false id).message = some "Failed to process error" ∧
     (ingestPipeline true false id).status = 200) ∧
    (∀ q o : Bool, (ingestPipeline q o id).status = 200 ∨
      (ingestPipeline q o id).status = 429) := by
  refine ⟨⟨rfl, rfl, rfl⟩, fun q o => ?_⟩
  cases q <;> cases o <;> simp [ingestPipeline]

/-- C3 counterexample: a resolved entitlement response with no allowed
field (or with no data object at all) makes checkQuota return false,
not true as the claim states. -/
theorem checkQuota_malformed_cex :
    checkQuota (.ok (some { allowed := none })) = false ∧
    checkQuota (.ok none) = false := ⟨rfl, rfl⟩

/-- C3 (corrected): checkQuota returns true exactly when the external
call throws or the response carries allowed=true; a malformed resolved
response (missing data object or missing allowed field) yields false,
the same answer as an explicit allowed=false. -/
theorem checkQuota_characterization (o : AutumnOutcome) :
    checkQuota o = true ↔
      o = .throws ∨ ∃ d : AutumnCheckData, o = .ok (some d) ∧ d.allowed = some true := by
  cases o with
  | throws => simp [checkQuota]
  | ok data =>
      cases data with
      | none => simp [checkQuota]
      | some d =>
          cases h : d.allowed with
          | none => simp [checkQuota, Option.bind, h]
          | some b => cases b <;> simp [checkQuota, Option.bind, h]

/-- C4 counterexample: the caller supplied country "Wonderland" in the
body, but the assembled /ingest record carries the geo-lookup country
"DE": the geolocation fields are written after the body spread and
overwrite caller-supplied values. -/
theorem ingest_geo_overwrite_cex :
    demoErrorBody.country = some "Wonderland" ∧
    demoErrorRow.country = some "DE" ∧
    demoErrorRow.country ≠ demoErrorBody.country := by
  exact ⟨rfl, rfl, by decide⟩

/-- C4 (corrected): in the /ingest enrichment step the UA-derived fields
(browser name/version, OS name/version, device type) keep a
caller-supplied value verbatim and fall back to the parsed value only
when the body field is absent; the six geolocation fields (country,
region, city, org, postal, loc) are instead always taken from the geo
lookup, overwriting any caller-supplied value. -/
theorem ingest_enrichment_precedence (id : String) (body : ErrorIngestBody)
    (userAgent : String) (ua : UAParseResult) (ip : Option String) (geo : GeoData)
    (domain : Option String) (now : DateInput) :
    ((∀ v, body.browser_name = some v →
        (buildErrorData id body userAgent ua ip geo domain now).browser_name = some v) ∧
     (body.browser_name = none →
        (buildErrorData id body userAgent ua ip geo domain now).browser_name =
          ua.browserName) ∧
     (∀ v, body.browser_version = some v →
        (buildErrorData id body userAgent ua ip geo domain now).browser_version = some v) ∧
     (body.browser_version = none →
        (buildErrorData id body userAgent ua ip geo domain now).browser_version =
          ua.browserVersion) ∧
     (∀ v, body.os_name = some v →
        (buildErrorData id body userAgent ua ip geo domain now).os_name = some v) ∧
     (body.os_name = none →
        (buildErrorData id body userAgent ua ip geo domain now).os_name = ua.osName) ∧
     (∀ v, body.os_version = some v →
        (buildErrorData id body userAgent ua ip geo domain now).os_version = some v) ∧
     (body.os_version = none →
        (buildErrorData id body userAgent ua ip geo domain now).os_version = ua.osVersion) ∧
     (∀ v, body.device_type = some v →
        (buildErrorData id body userAgent ua ip geo domain now).device_type = v)) ∧
    ((buildErrorData id body userAgent ua ip geo domain now).country = geo.country ∧
     (buildErrorData id body userAgent ua ip geo domain now).region = geo.region ∧
     (buildErrorData id body userAgent ua ip geo domain now).city = geo.city ∧
     (buildErrorData id body userAgent ua ip geo domain now).org = geo.org ∧
     (buildErrorData id body userAgent ua ip geo domain now).postal = geo.postal ∧
     (buildErrorData id body userAgent ua ip geo domain now).loc = geo.loc) := by
  refine ⟨⟨?_, ?_, ?_, ?_, ?_, ?_, ?_, ?_, ?_⟩, rfl, rfl, rfl, rfl, rfl, rfl⟩
  all_goals
    first
      | (intro v hv; simp [buildErrorData, jsNullish, hv])
      | (intro hv; simp [buildErrorData, jsNullish, hv])

/-- C5 counterexample: an undefined array element survives the
sanitizer unchanged — replaceUndefinedWithNull([undefined]) is
[undefined], not [null]. -/
theorem sanitizer_array_undef_cex :
    replaceUndefinedWithNull (.arr [.undef]) = .arr [.undef] ∧
    JSValue.arr [JSValue.undef] ≠ JSValue.arr [JSValue.null] := by
  constructor
  · simp [replaceUndefinedWithNull, replaceUndefinedList]
  · simp

/-- C5 (corrected): the sanitizer preserves shape (key sets, array
lengths and order), is the identity on undefined-free values, removes
every undefined object-entry value (none remains anywhere in its
output), and is idempotent; but on arrays it maps itself over the
elements and maps an undefined element to undefined, so undefined array
elements (and an undefined top-level value) are left in place rather
than replaced by null. -/
theorem sanitizer_characterization :
    (∀ v, shapeOf (replaceUndefinedWithNull v) = shapeOf v) ∧
    (∀ v, noUndef v = true → replaceUndefinedWithNull v = v) ∧
    (∀ v, hasUndefEntry (replaceUndefinedWithNull v) = false) ∧
    (∀ v, replaceUndefinedWithNull (replaceUndefinedWithNull v) =
      replaceUndefinedWithNull v) ∧
    (∀ (xs : List JSValue) (i : Nat),
      (replaceUndefinedList xs)[i]? = (xs[i]?).map replaceUndefinedWithNull) ∧
    (∀ (xs : List JSValue) (i : Nat), xs[i]? = some JSValue.undef →
      (replaceUndefinedList xs)[i]? = some JSValue.undef) ∧
    replaceUndefinedWithNull JSValue.undef = JSValue.undef := by
  refine ⟨shapeOf_replace, replace_of_noUndef, hasUndefEntry_replace, replace_idem,
    replaceList_getElem, fun xs i h => ?_, by simp [replaceUndefinedWithNull]⟩
  simp [replaceList_getElem, h, replaceUndefinedWithNull]


/-- C6 counterexample: a /localization/object request asking for target
locale "fr" on an empty cache makes the handler call the translator with
target locale "ar" (hard-coded at the call site), and the returned
result is the translation into "ar", not into the requested "fr" (the
translator here returns the target locale it was asked for, exposing
the argument). -/
theorem localizeObject_target_hardcoded_cex :
    ((localizationObjectHandler (fun c => c.targetLocale) (emptyTranslationCache String) 0
        (some demoContent) none (some "fr")).call.map TranslateCall.targetLocale) =
      some "ar" ∧
    (localizationObjectHandler (fun c => c.targetLocale) (emptyTranslationCache String) 0
        (some demoContent) none (some "fr")).result = some "ar" ∧
    ("ar" : String) ≠ "fr" := by
  refine ⟨?_, ?_, by decide⟩ <;>
    simp [localizationObjectHandler, demoContent, jsTruthy, jsTypeof, getCachedResult,
      emptyTranslationCache]

/-- C6 (corrected): on a valid-object cache miss the
/localization/object handler calls the translator with the request
body's sourceLocale (defaulting to "en" when the field is absent) but
with the hard-coded target locale "ar" instead of the requested
targetLocale, and returns the result of that "ar" call; the cache key,
in contrast, is built from the requested source and target locales (each
defaulting to "en" when absent). -/
theorem localizeObject_call_locales {α : Type} (translator : TranslateCall → α)
    (cache : TranslationCache α) (now : Int) (kvs : List (String × JSValue))
    (srcField tgtField : Option String)
    (hmiss : (getCachedResult cache now
      (getCacheKey (.obj (.obj kvs)) (srcField.getD "en") (tgtField.getD "en"))).1 = none) :
    (localizationObjectHandler translator cache now (some (.obj kvs)) srcField
        tgtField).call =
      some { content := JSValue.obj kvs, sourceLocale := srcField.getD "en",
             targetLocale := "ar" } ∧
    (localizationObjectHandler translator cache now (some (.obj kvs)) srcField
        tgtField).result =
      some (translator { content := JSValue.obj kvs, sourceLocale := srcField.getD "en",
                         targetLocale := "ar" }) ∧
    (localizationObjectHandler translator cache now (some (.obj kvs)) srcField
        tgtField).cacheKeyUsed =
      some (getCacheKey (.obj (.obj kvs)) (srcField.getD "en") (tgtField.getD "en")) := by
  rcases hgc : getCachedResult cache now
      (getCacheKey (.obj (.obj kvs)) (srcField.getD "en") (tgtField.getD "en")) with ⟨r, next⟩
  rw [hgc] at hmiss
  simp only at hmiss
  subst hmiss
  refine ⟨?_, ?_, ?_⟩ <;>
    simp [localizationObjectHandler, jsTruthy, jsTypeof, hgc]

/-- C6 witness: the corrected statement at a concrete request (source
locale "de", requested target locale "fr", empty cache). -/
theorem localizeObject_call_locales_witness :
    (localizationObjectHandler (fun c => c.sourceLocale) (emptyTranslationCache String) 0
        (some (.obj [("k", JSValue.str "v")])) (some "de") (some "fr")).call =
      some { content := JSValue.obj [("k", JSValue.str "v")], sourceLocale := "de",
             targetLocale := "ar" } ∧
    (localizationObjectHandler (fun c => c.sourceLocale) (emptyTranslationCache String) 0
        (some (.obj [("k", JSValue.str "v")])) (some "de") (some "fr")).result =
      some "de" ∧
    (localizationObjectHandler (fun c => c.sourceLocale) (emptyTranslationCache String) 0
        (some (.obj [("k", JSValue.str "v")])) (some "de") (some "fr")).cacheKeyUsed =
      some (getCacheKey (.obj (.obj [("k", JSValue.str "v")])) "de" "fr") :=
  localizeObject_call_locales (fun c => c.sourceLocale) (emptyTranslationCache String) 0
    [("k", JSValue.str "v")] (some "de") (some "fr") rfl

/-- C7 (confirmed): for each of the three event kinds, a quota answer of
false makes the handler return status 429 and the event-store insert
collaborator is never invoked for that request. -/
theorem quota_rejection_no_insert (insertOk : Bool) (id : String) :
    ((ingestPipeline false insertOk id).status = 429 ∧
     (ingestPipeline false insertOk id).insertCalled = false) ∧
    ((logPipeline false insertOk id).status = 429 ∧
     (logPipeline false insertOk id).insertCalled = false) ∧
    ((notFoundPipeline false insertOk id).status = 429 ∧
     (notFoundPipeline false insertOk id).insertCalled = false) :=
  ⟨⟨rfl, rfl⟩, ⟨rfl, rfl⟩, ⟨rfl, rfl⟩⟩

/-- C8 counterexample: a parseable date whose local year is 5 renders as
"5-01-02 03:04:05.006" (length 20): the year is interpolated without
padding, so the output is not of the claimed fixed YYYY-MM-DD
HH:MM:SS.mmm shape (length 23) for every parseable input. -/
theorem toCHDateTime64_year_width_cex :
    toCHDateTime64 (.valid ⟨5, 0, 2, 3, 4, 5, 6⟩) = some "5-01-02 03:04:05.006" ∧
    ("5-01-02 03:04:05.006" : String).length = 20 ∧
    ("2024-01-02 03:04:05.006" : String).length = 23 := ⟨rfl, rfl, rfl⟩

/-- C8 (corrected): toCHDateTime64 returns null on falsy input and on
input that fails to parse as a date (it never throws); on a parseable
input it renders year-month-day hour:minute:second.ms with month, day,
hour, minute and second zero-padded to width 2 and milliseconds to
width 3, and the concrete example Date(2024,0,2,3,4,5,6) renders as
"2024-01-02 03:04:05.006"; the year is interpolated unpadded, so the
YYYY width holds for years 1000-9999 (the counterexample shows a
smaller year rendering narrower). -/
theorem toCHDateTime64_spec (d : LocalDateTime) (hy1 : 1000 ≤ d.year) (hy2 : d.year < 10000)
    (hmo : d.month0 < 12) (hd : d.day < 32) (hh : d.hour < 24) (hmi : d.minute < 60)
    (hs : d.second < 60) (hms : d.ms < 1000) :
    toCHDateTime64 .falsy = none ∧
    toCHDateTime64 .invalid = none ∧
    toCHDateTime64 (.valid ⟨2024, 0, 2, 3, 4, 5, 6⟩) = some "2024-01-02 03:04:05.006" ∧
    ∃ ys mos ds2 hos mis ses mss : String,
      toCHDateTime64 (.valid d) =
        some (ys ++ "-" ++ mos ++ "-" ++ ds2 ++ " " ++ hos ++ ":" ++ mis ++ ":" ++ ses ++
          "." ++ mss) ∧
      ys.length = 4 ∧ mos.length = 2 ∧ ds2.length = 2 ∧ hos.length = 2 ∧ mis.length = 2 ∧
      ses.length = 2 ∧ mss.length = 3 :=
  ⟨rfl, rfl, toCHDateTime64_example, toCHDateTime64_format d hy1 hy2 hmo hd hh hmi hs hms⟩

/-- C8 witness: the corrected statement at the concrete local date
(2024, January, 2, 03:04:05.006). -/
theorem toCHDateTime64_spec_witness :
    toCHDateTime64 .falsy = none ∧
    toCHDateTime64 .invalid = none ∧
    toCHDateTime64 (.valid ⟨2024, 0, 2, 3, 4, 5, 6⟩) = some "2024-01-02 03:04:05.006" ∧
    ∃ ys mos ds2 hos mis ses mss : String,
      toCHDateTime64 (.valid ⟨2024, 0, 2, 3, 4, 5, 6⟩) =
        some (ys ++ "-" ++ mos ++ "-" ++ ds2 ++ " " ++ hos ++ ":" ++ mis ++ ":" ++ ses ++
          "." ++ mss) ∧
      ys.length = 4 ∧ mos.length = 2 ∧ ds2.length = 2 ∧ hos.length = 2 ∧ mis.length = 2 ∧
      ses.length = 2 ∧ mss.length = 3 :=
  toCHDateTime64_spec ⟨2024, 0, 2, 3, 4, 5, 6⟩ (by decide) (by decide) (by decide)
    (by decide) (by decide) (by decide) (by decide) (by decide)

/-- C9 (confirmed): a translation-cache lookup returns the stored result
exactly when an entry for the key exists whose age is under
CACHE_DURATION; on an entry whose age is at least the window the lookup
misses and the entry is deleted from the returned cache state; an absent
key misses and leaves the cache unchanged. -/
theorem getCachedResult_expiry (α : Type) (cache : TranslationCache α) (now : Int)
    (k : String) (r : α) :
    ((getCachedResult cache now k).1 = some r ↔
      ∃ e : CacheEntry α, cache k = some e ∧ now - e.timestamp < CACHE_DURATION ∧
        e.result = r) ∧
    (∀ e : CacheEntry α, cache k = some e → CACHE_DURATION ≤ now - e.timestamp →
      (getCachedResult cache now k).1 = none ∧ (getCachedResult cache now k).2 k = none) ∧
    (cache k = none → getCachedResult cache now k = (none, cache)) := by
  refine ⟨?_, ?_, ?_⟩
  · cases h : cache k with
    | none => simp [getCachedResult, h]
    | some e =>
        by_cases ht : now - e.timestamp < CACHE_DURATION
        · simp only [getCachedResult, h, if_pos ht]
          constructor
          · intro hr
            exact ⟨e, rfl, ht, by simpa using hr⟩
          · rintro ⟨e2, he2, -, hres⟩
            have : e2 = e := by simpa using he2.symm
            subst this
            simp [hres]
        · simp only [getCachedResult, h, if_neg ht]
          constructor
          · intro hr
            simp at hr
          · rintro ⟨e2, he2, ht2, -⟩
            have : e2 = e := by simpa using he2.symm
            subst this
            exact absurd ht2 ht
  · intro e he ht
    have hnot : ¬ (now - e.timestamp < CACHE_DURATION) := by omega
    refine ⟨?_, ?_⟩ <;> simp [getCachedResult, he, hnot, mapDelete]
  · intro h
    simp [getCachedResult, h]

/-- C9 witness: the three conjuncts of the lookup contract exercised at
a concrete cache holding one fresh entry. -/
theorem getCachedResult_expiry_witness :
    (getCachedResult (setCachedResult (emptyTranslationCache Nat) "k1" 42 0) 1 "k1").1 =
      some 42 := by
  have h := (getCachedResult_expiry Nat
    (setCachedResult (emptyTranslationCache Nat) "k1" 42 0) 1 "k1" 42).1
  exact h.mpr ⟨{ result := 42, timestamp := 0 }, rfl, by decide, rfl⟩

/-- C10 (confirmed): getCacheKey is not injective — the distinct triples
("a-b", "c", "d") and ("a", "b-c", "d") produce the same key string by
re-bracketing the dash-joined concatenation — and consequently a
translation stored for the first request is returned, within the expiry
window, to a lookup made on behalf of the second. -/
theorem getCacheKey_collision :
    getCacheKey (.str "a-b") "c" "d" = getCacheKey (.str "a") "b-c" "d" ∧
    ("a-b" : String) ≠ "a" ∧ ("c" : String) ≠ "b-c" ∧
    (getCachedResult
        (setCachedResult (emptyTranslationCache String) (getCacheKey (.str "a-b") "c" "d")
          "stored translation" 0)
        1 (getCacheKey (.str "a") "b-c" "d")).1 = some "stored translation" := by
  exact ⟨rfl, by decide, by decide, rfl⟩
